import Mathlib

/-!
Shallow embedding of the assistive-navigation tracking core
(`object_manager.py`, `mode_controller.py`, `vision_module.py`,
`audio_hrtf.py`, `audio_module_multi.py`, `config.py`).

Python floats are modelled as rationals (`ℚ`); the square root,
sine and cosine used by the audio engine are modelled over `ℝ`.
External OpenCV objects (trackers, template matching) are modelled
as explicit per-tick outcome parameters.
-/

/-- Truncation toward zero, the behaviour of Python's `int(...)` on a float. -/
def intTrunc (q : ℚ) : ℤ := if 0 ≤ q then ⌊q⌋ else -⌊-q⌋

/-- Axis-aligned bounding box `(x, y, w, h)` in pixel coordinates
(`object_manager.py` stores it as a 4-tuple of numbers). -/
structure Bbox where
  x : ℚ
  y : ℚ
  w : ℚ
  h : ℚ
deriving DecidableEq, Repr

/-- Frame dimensions; `frame.shape[:2]` is `(height, width)`. -/
structure Frame where
  height : ℕ
  width : ℕ
deriving DecidableEq, Repr

/-- One entry of `config.AUDIO_SIGNATURES`. -/
structure AudioSig where
  type : String
  freq : ℕ
  waveform : String
deriving DecidableEq, Repr

/-- `config.AUDIO_SIGNATURES` (insertion order of the Python dict). -/
def AUDIO_SIGNATURES : List (String × AudioSig) :=
  [("person", ⟨"heartbeat", 80, "pulse"⟩),
   ("phone", ⟨"tone", 440, "sine"⟩),
   ("door", ⟨"hum", 120, "sine"⟩),
   ("chair", ⟨"click", 800, "square"⟩),
   ("table", ⟨"click", 600, "square"⟩),
   ("cup", ⟨"tone", 660, "sine"⟩),
   ("obstacle", ⟨"warning", 1000, "sawtooth"⟩),
   ("default", ⟨"tone", 330, "sine"⟩)]

/-- `AUDIO_SIGNATURES.get(label, AUDIO_SIGNATURES["default"])`. -/
def audioSigFor (label : String) : AudioSig :=
  ((AUDIO_SIGNATURES.lookup label).getD ⟨"tone", 330, "sine"⟩)

/-- `config.THREAT_PRIORITIES`. -/
def THREAT_PRIORITIES : List (String × ℚ) :=
  [("person", 1), ("car", 1), ("truck", 1), ("bus", 1),
   ("door", 8/10), ("stairs", 9/10), ("wall", 7/10), ("tree", 8/10),
   ("pole", 8/10), ("obstacle", 9/10), ("chair", 4/10), ("table", 4/10),
   ("couch", 4/10), ("bed", 4/10), ("tv", 3/10), ("laptop", 2/10),
   ("phone", 1/10), ("cup", 1/10), ("bottle", 1/10), ("book", 1/10),
   ("pen", 5/100), ("default", 3/10)]

/-- `config.MIN_VELOCITY_THRESHOLD`. -/
def MIN_VELOCITY_THRESHOLD : ℚ := 5

/-- `config.PREDICTION_HORIZON_SECONDS`. -/
def PREDICTION_HORIZON_SECONDS : ℚ := 1/2

/-- `config.MOTION_PREDICTION_ENABLED`. -/
def MOTION_PREDICTION_ENABLED : Bool := true

/-- The `TrackedObject` dataclass of `object_manager.py`.  The opaque
`cv2.Tracker` handle is modelled by the Boolean `hasTracker`
(`tracker is not None`); timestamps are rationals. -/
structure TrackedObject where
  id : ℕ
  label : String
  bbox : Bbox
  hasTracker : Bool
  confidence : ℚ
  audio_signature : AudioSig
  color : ℕ × ℕ × ℕ
  last_update : ℚ
  velocity : Option (ℚ × ℚ) := none
  predicted_bbox : Option Bbox := none
  threat_score : ℚ := 0
  is_lost : Bool := false
  lost_time : Option ℚ := none
  templateDims : Option (ℕ × ℕ) := none
  last_template_update : ℚ := 0
  context : Option String := none
  last_verified : ℚ := 0
deriving DecidableEq, Repr

/-- `ObjectManager.compute_iou`. -/
def compute_iou (box1 box2 : Bbox) : ℚ :=
  let xA := max box1.x box2.x
  let yA := max box1.y box2.y
  let xB := min (box1.x + box1.w) (box2.x + box2.w)
  let yB := min (box1.y + box1.h) (box2.y + box2.h)
  let interArea := max 0 (xB - xA) * max 0 (yB - yA)
  let box1Area := box1.w * box1.h
  let box2Area := box2.w * box2.h
  if box1Area + box2Area - interArea = 0 then 0
  else interArea / (box1Area + box2Area - interArea)

/-- Split a character list at the first occurrence of `c`: the part
before and the part after, or `none` when `c` does not occur. -/
def splitAtFirst (c : Char) : List Char → Option (List Char × List Char)
  | [] => none
  | x :: xs =>
    if x = c then some ([], xs)
    else
      match splitAtFirst c xs with
      | none => none
      | some (a, b) => some (x :: a, b)

/-- Python's `str.strip()`: drop leading and trailing whitespace. -/
def stripChars (l : List Char) : List Char :=
  ((l.dropWhile Char.isWhitespace).reverse.dropWhile Char.isWhitespace).reverse

/-- The label/context split of `process_detections`
(`re.search` of an anchored lazy group, an opening bracket, a lazy group
and a closing bracket): the text before the first opening bracket becomes
the label and the text from there to the next closing bracket becomes the
context, both stripped; if no such pair exists the label is kept whole. -/
def parseLabel (s : String) : String × Option String :=
  match splitAtFirst (Char.ofNat 91) s.toList with
  | none => (s, none)
  | some (before, after) =>
    match splitAtFirst (Char.ofNat 93) after with
    | none => (s, none)
    | some (inner, _) =>
      (String.mk (stripChars before), some (String.mk (stripChars inner)))

/-- A detection record as consumed by `process_detections`
(`det.get("box_2d", [])`, `det.get("label", "unknown")`). -/
structure Detection where
  box_2d : List ℤ
  label : String
deriving DecidableEq, Repr

/-- The coordinate conversion, clamping, and minimum-size guard of
`process_detections`: normalized `[y_min, x_min, y_max, x_max]` (0–1000)
to a pixel bbox; `none` when the record is malformed or the converted box
is smaller than 5×5. -/
def convertDetection (box_2d : List ℤ) (frame : Frame) : Option Bbox :=
  match box_2d with
  | [y_min, x_min, y_max, x_max] =>
    let fw : ℤ := frame.width
    let fh : ℤ := frame.height
    let x := intTrunc ((x_min * fw : ℤ) / (1000 : ℚ))
    let y := intTrunc ((y_min * fh : ℤ) / (1000 : ℚ))
    let w := intTrunc (((x_max - x_min) * fw : ℤ) / (1000 : ℚ))
    let h := intTrunc (((y_max - y_min) * fh : ℤ) / (1000 : ℚ))
    let x := max 0 (min x (fw - 1))
    let y := max 0 (min y (fh - 1))
    let w := max 1 (min w (fw - x))
    let h := max 1 (min h (fh - y))
    if w < 5 ∨ h < 5 then none
    else some ⟨(x : ℚ), (y : ℚ), (w : ℚ), (h : ℚ)⟩
  | _ => none

/-- The matching loop of `process_detections` over `self.object_manager.objects`:
scan in order for an object with an identical label; on the first one whose
IoU with the converted bbox exceeds 0.1, update bbox (under the smart-merge
rule), refresh metadata, and stop.  Returns the updated list and whether a
match happened. -/
def matchDetection (label : String) (new_bbox : Bbox) (context : Option String)
    (now : ℚ) : List TrackedObject → List TrackedObject × Bool
  | [] => ([], false)
  | o :: rest =>
    if o.label = label then
      let iou := compute_iou o.bbox new_bbox
      let should_update_bbox :=
        if o.is_lost then decide (iou > 1/10) else decide (iou > 6/10)
      let o1 := if should_update_bbox then { o with bbox := new_bbox } else o
      if iou > 1/10 then
        ({ o1 with last_verified := now, context := context,
                   is_lost := false, lost_time := none } :: rest, true)
      else
        let (rest', m) := matchDetection label new_bbox context now rest
        (o1 :: rest', m)
    else
      let (rest', m) := matchDetection label new_bbox context now rest
      (o :: rest', m)

/-- The mutable collection state of `ObjectManager`. -/
structure OMState where
  objects : List TrackedObject
  next_id : ℕ
deriving DecidableEq, Repr

/-- `ObjectManager`'s colour palette. -/
def color_palette : List (ℕ × ℕ × ℕ) :=
  [(255, 0, 0), (0, 255, 0), (0, 0, 255), (255, 255, 0), (255, 0, 255), (0, 255, 255)]

/-- `ObjectManager.add_object`. -/
def add_object (st : OMState) (label : String) (bbox : Bbox)
    (context : Option String) (now : ℚ) : OMState × TrackedObject :=
  let audio_sig := audioSigFor label
  let color := color_palette.getD (st.next_id % color_palette.length) (255, 0, 0)
  let obj : TrackedObject :=
    { id := st.next_id, label := label, bbox := bbox, hasTracker := false,
      confidence := 1, audio_signature := audio_sig, color := color,
      last_update := now, velocity := none, predicted_bbox := none,
      threat_score := 0, is_lost := false, lost_time := none,
      templateDims := none, last_template_update := 0, context := context,
      last_verified := now }
  ({ objects := st.objects ++ [obj], next_id := st.next_id + 1 }, obj)

/-- One iteration of the detection loop of `ModeController.process_detections`. -/
def processOneDetection (frame : Frame) (now : ℚ) (st : OMState)
    (det : Detection) : OMState × ℕ :=
  match convertDetection det.box_2d frame with
  | none => (st, 0)
  | some new_bbox =>
    let (label, context) := parseLabel det.label
    let (objs', matched) := matchDetection label new_bbox context now st.objects
    if matched then ({ st with objects := objs' }, 0)
    else
      let (st', _) := add_object { st with objects := objs' } label new_bbox context now
      (st', 1)

/-- `ModeController.process_detections`: fold the detection batch into the
object-manager state, returning the new state and the number of newly
created objects. -/
def process_detections (detections : List Detection) (frame : Frame)
    (now : ℚ) (st : OMState) : OMState × ℕ :=
  if detections = [] then (st, 0)
  else
    detections.foldl
      (fun acc det =>
        let (st', added) := processOneDetection frame now acc.1 det
        (st', acc.2 + added))
      (st, 0)

/-- The last-token lowercase semantic lookup of `update_trackers`
(`obj.label.lower().split(" ")[-1]` against `config.THREAT_PRIORITIES`).
The per-tick threat formula never uses this value; it is defined here to
state that fact. -/
def semanticScoreOf (label : String) : ℚ :=
  let label_key := (label.toLower.splitOn " ").getLast? |>.getD ""
  (THREAT_PRIORITIES.lookup label_key).getD (3/10)

/-- The per-tick threat score computed by `update_trackers` on a successful
tracker update: `size_score * 0.7 + centrality_score * 0.3`. -/
def threatScoreOf (frame : Frame) (bbox : Bbox) : ℚ :=
  let area := bbox.w * bbox.h
  let frame_area := (frame.height : ℚ) * (frame.width : ℚ)
  let size_score := min 1 (area / (frame_area * (1/2)))
  let center_x := bbox.x + bbox.w / 2
  let frame_center_x := (frame.width : ℚ) / 2
  let dist_from_center := |center_x - frame_center_x| / ((frame.width : ℚ) / 2)
  let centrality_score := 1 - min 1 dist_from_center
  size_score * (7/10) + centrality_score * (3/10)

/-- `TrackedObject.update_velocity`. -/
def update_velocity (o : TrackedObject) (new_bbox : Bbox) (now : ℚ) : TrackedObject :=
  let old_center_x := o.bbox.x + o.bbox.w / 2
  let old_center_y := o.bbox.y + o.bbox.h / 2
  let new_center_x := new_bbox.x + new_bbox.w / 2
  let new_center_y := new_bbox.y + new_bbox.h / 2
  { o with velocity := some (new_center_x - old_center_x, new_center_y - old_center_y),
           bbox := new_bbox, last_update := now }

/-- `TrackedObject.predict_position` (horizon 0.5 s, 30 ticks/s, `int()`
truncation of the extrapolated corner). -/
def predict_position (o : TrackedObject) (horizon_seconds : ℚ) : TrackedObject :=
  match o.velocity with
  | none => { o with predicted_bbox := some o.bbox }
  | some (vx, vy) =>
    if |vx| < MIN_VELOCITY_THRESHOLD ∧ |vy| < MIN_VELOCITY_THRESHOLD then
      { o with predicted_bbox := some o.bbox }
    else
      let frames_ahead := horizon_seconds * 30
      let pred_x := o.bbox.x + vx * frames_ahead
      let pred_y := o.bbox.y + vy * frames_ahead
      let pb : Bbox := ⟨(intTrunc pred_x : ℚ), (intTrunc pred_y : ℚ), o.bbox.w, o.bbox.h⟩
      { o with predicted_bbox := some pb }

/-- Outcome of `obj.tracker.update(frame)` for one object this tick, an
external OpenCV call: success with a new bbox, a clean failure
(`ok = False`), or a raised exception. -/
inductive TrackerStep
  | ok (bbox : Bbox)
  | fail
  | err
deriving DecidableEq, Repr

/-- The per-object body of `ObjectManager.update_trackers`: mark lost when
the tracker is absent or fails (recording `lost_time` only on the
transition), leave the object untouched on an exception, and on success
update velocity/bbox, clear the lost state, recompute the motion
prediction, and recompute `threat_score` from the new bbox. -/
def updateObj (frame : Frame) (now : ℚ) (step : ℕ → TrackerStep)
    (o : TrackedObject) : TrackedObject :=
  if o.hasTracker = false then
    if o.is_lost = false then { o with is_lost := true, lost_time := some now } else o
  else
    match step o.id with
    | .ok bbox =>
      let o1 := update_velocity o bbox now
      let o1 := { o1 with is_lost := false, lost_time := none }
      let o1 := if MOTION_PREDICTION_ENABLED then
          predict_position o1 PREDICTION_HORIZON_SECONDS else o1
      { o1 with threat_score := threatScoreOf frame bbox }
    | .fail =>
      if o.is_lost = false then { o with is_lost := true, lost_time := some now } else o
    | .err => o

/-- `ObjectManager.update_trackers`: update every object, returning the
updated collection and the list of successfully tracked objects. -/
def update_trackers (frame : Frame) (now : ℚ) (step : ℕ → TrackerStep)
    (objects : List TrackedObject) : List TrackedObject × List TrackedObject :=
  (objects.map (updateObj frame now step),
   objects.filterMap (fun o =>
     if o.hasTracker then
       match step o.id with
       | .ok _ => some (updateObj frame now step o)
       | _ => none
     else none))

/-- `ObjectManager.remove_object`. -/
def remove_object (objects : List TrackedObject) (obj_id : ℕ) : List TrackedObject :=
  objects.filter (fun o => o.id ≠ obj_id)

/-- `ObjectManager.cleanup_stale_trackers`: keep objects with
`now - last_verified < max_age`, report whether any were removed. -/
def cleanup_stale_trackers (now : ℚ) (max_age : ℚ)
    (objects : List TrackedObject) : List TrackedObject × Bool :=
  let kept := objects.filter (fun o => now - o.last_verified < max_age)
  (kept, decide (kept.length < objects.length))

/-- One proximity zone configuration entry. -/
structure ZoneCfg where
  min : ℚ
  max : ℚ
  color : ℕ × ℕ × ℕ
deriving DecidableEq, Repr

/-- `config.PROXIMITY_ZONES` in dict insertion order. -/
def PROXIMITY_ZONES : List (String × ZoneCfg) :=
  [("safe", ⟨0, 3/10, (0, 255, 0)⟩),
   ("caution", ⟨3/10, 6/10, (0, 255, 255)⟩),
   ("warning", ⟨6/10, 1, (0, 0, 255)⟩)]

/-- The zone-scanning loop of `get_proximity_zone`, with its `"safe"`
fallthrough. -/
def findZone (size_ratioq : ℚ) : List (String × ZoneCfg) → String
  | [] => "safe"
  | (name, z) :: rest =>
    if z.min ≤ size_ratioq ∧ size_ratioq < z.max then name
    else findZone size_ratioq rest

/-- `ObjectManager.get_proximity_zone` (the object always has a bbox in
this model, so the `not obj.bbox` guard is vacuous). -/
def get_proximity_zone (obj : TrackedObject) (frame_width frame_height : ℚ) : String :=
  let obj_area := obj.bbox.w * obj.bbox.h
  let frame_area := frame_width * frame_height
  let size_ratioq := obj_area / frame_area
  findZone size_ratioq PROXIMITY_ZONES

/-- Python truthiness of the `Optional[float]` field `lost_time`
(`None` and `0.0` are falsy). -/
def optTruthy : Option ℚ → Bool
  | none => false
  | some t => decide (t ≠ 0)

/-- `ModeController.get_main_threat`: head of the objects sorted by
`threat_score` descending (a stable sort, so the earliest object among
those attaining the maximum). -/
def get_main_threat (objects : List TrackedObject) : Option TrackedObject :=
  match objects with
  | [] => none
  | o :: rest =>
    some (rest.foldl (fun best p => if p.threat_score > best.threat_score then p else best) o)

/-- `ModeController.check_lost_threats`: when the main threat is lost with
a (truthy) `lost_time`, a score above 0.3, and more than 2 s elapsed,
remove it from the object manager and signal a re-scan. -/
def check_lost_threats (now : ℚ) (objects : List TrackedObject) :
    Bool × List TrackedObject :=
  match get_main_threat objects with
  | none => (false, objects)
  | some main_threat =>
    if main_threat.is_lost = true ∧ optTruthy main_threat.lost_time = true then
      let elapsed := now - main_threat.lost_time.getD 0
      if main_threat.threat_score > 3/10 ∧ elapsed > 2 then
        (true, remove_object objects main_threat.id)
      else (false, objects)
    else (false, objects)

/-- `VisionController.attempt_local_recovery`: the stored template is
modelled by its dimensions `(height, width)`; the result of
`cv2.minMaxLoc(cv2.matchTemplate(frame, template, TM_CCOEFF_NORMED))` is
the external pair `(max_val, max_loc)` with `max_loc = (x, y)`. -/
def attempt_local_recovery (frame : Frame) (obj : TrackedObject)
    (max_val : ℚ) (max_loc : ℤ × ℤ) : Bool × Option Bbox :=
  match obj.templateDims with
  | none => (false, none)
  | some (h_templ, w_templ) =>
    if h_templ > frame.height ∨ w_templ > frame.width then (false, none)
    else if max_val > 7/10 then
      (true, some ⟨(max_loc.1 : ℚ), (max_loc.2 : ℚ), (w_templ : ℚ), (h_templ : ℚ)⟩)
    else (false, none)

/-- The fixed reference frame of `HRTF_AudioController._update_scene`
(`width = 1280`, `height = 720`), giving `max_area = width*height*0.5`. -/
def hrtfMaxArea : ℚ := 1280 * 720 * (1/2)

/-- The distance estimate of `_update_scene`:
`max(0.5, min(10.0, sqrt(max_area / (area + 1))))`. -/
noncomputable def hrtfDist (area : ℚ) : ℝ :=
  max 0.5 (min 10.0 (Real.sqrt ((hrtfMaxArea : ℝ) / ((area : ℝ) + 1))))

/-- The base (pre-ducking) gain of `_update_scene`:
`max(0.1, min(1.0, 1.0 / (dist * 0.5)))`. -/
noncomputable def hrtfBaseGain (area : ℚ) : ℝ :=
  max 0.1 (min 1.0 (1.0 / (hrtfDist area * 0.5)))

/-- The `max_threat` scan of `_update_scene`: running maximum of
`threat_score` over the snapshot, started at `0.0`. -/
def maxThreat (objects : List TrackedObject) : ℚ :=
  objects.foldl (fun m o => max m o.threat_score) 0

/-- The final per-object gain of `_update_scene`: the base distance gain,
multiplied by 0.3 when the object's threat score is below 80% of the
maximum threat score in the snapshot. -/
noncomputable def hrtfFinalGain (objects : List TrackedObject)
    (o : TrackedObject) : ℝ :=
  let base_gain := hrtfBaseGain (o.bbox.w * o.bbox.h)
  if o.threat_score < maxThreat objects * (8/10) then base_gain * 0.3
  else base_gain

/-- One active source of `MultiAudioController` (`self.sources[obj_id]`):
azimuth and volume as stored by `update_source`, the signature waveform as
a sample list, and the loop position. -/
structure AudioSource where
  azimuth : ℚ
  volume : ℚ
  signature : List ℚ
  position : ℕ
deriving DecidableEq, Repr

/-- `config.MAX_AZIMUTH_DEGREES`. -/
def MAX_AZIMUTH_DEGREES : ℚ := 80

/-- The constant-power pan of `_audio_callback`:
`pan = clip(azimuth / MAX_AZIMUTH_DEGREES, -1, 1)`,
`angle = (pan + 1) * π / 4`, left gain `cos(angle) * volume`. -/
noncomputable def leftGain (s : AudioSource) : ℝ :=
  let pan : ℚ := max (-1) (min 1 (s.azimuth / MAX_AZIMUTH_DEGREES))
  Real.cos (((pan : ℝ) + 1) * Real.pi / 4) * (s.volume : ℝ)

/-- Right gain of `_audio_callback`: `sin(angle) * volume`. -/
noncomputable def rightGain (s : AudioSource) : ℝ :=
  let pan : ℚ := max (-1) (min 1 (s.azimuth / MAX_AZIMUTH_DEGREES))
  Real.sin (((pan : ℝ) + 1) * Real.pi / 4) * (s.volume : ℝ)

/-- The looping signature read of `_audio_callback`:
`signature[position % len(signature)]` (0 for an empty signature). -/
def sampleAt (sig : List ℚ) (pos : ℕ) : ℚ :=
  sig.getD (pos % sig.length) 0

/-- One summed output channel of `_audio_callback` before normalization:
sample `i` is the sum over active sources of
`signature[(position + i) % len] * gain`. -/
noncomputable def mixChannel (gain : AudioSource → ℝ) (sources : List AudioSource)
    (frames : ℕ) : List ℝ :=
  (List.range frames).map (fun i =>
    (sources.map (fun s => (sampleAt s.signature (s.position + i) : ℝ) * gain s)).sum)

/-- `max(np.abs(left).max(), np.abs(right).max())` of `_audio_callback`,
as a running maximum of absolute sample values over both channels. -/
noncomputable def peakOf (left right : List ℝ) : ℝ :=
  (left ++ right).foldl (fun m x => max m |x|) 0

/-- `MultiAudioController._audio_callback`: mix all active sources into a
stereo pair and, when the peak exceeds 1.0, rescale both channels by the
same factor `1 / max_val`. -/
noncomputable def audio_callback (sources : List AudioSource) (frames : ℕ) :
    List ℝ × List ℝ :=
  let left_channel := mixChannel leftGain sources frames
  let right_channel := mixChannel rightGain sources frames
  let max_val := peakOf left_channel right_channel
  if max_val > 1 then
    (left_channel.map (· / max_val), right_channel.map (· / max_val))
  else (left_channel, right_channel)

/-- Concrete lost high-threat object used to exercise
`check_lost_threats`. -/
def lostThreatDemo : TrackedObject :=
  { id := 7, label := "person", bbox := ⟨0, 0, 100, 100⟩, hasTracker := true,
    confidence := 1, audio_signature := ⟨"heartbeat", 80, "pulse"⟩,
    color := (0, 0, 0), last_update := 0, threat_score := 1/2,
    is_lost := true, lost_time := some 1 }

/-- Concrete actively-tracked object used to exercise `update_trackers`. -/
def trackedDemo : TrackedObject :=
  { id := 3, label := "person", bbox := ⟨0, 0, 10, 10⟩, hasTracker := true,
    confidence := 1, audio_signature := ⟨"heartbeat", 80, "pulse"⟩,
    color := (0, 0, 0), last_update := 0 }

/-- Concrete existing object labelled `cup`, used to exercise
`process_detections` scenarios. -/
def cupDemo (lost : Bool) : TrackedObject :=
  { id := 0, label := "cup", bbox := ⟨0, 0, 10, 10⟩, hasTracker := true,
    confidence := 1, audio_signature := ⟨"tone", 660, "sine"⟩,
    color := (255, 0, 0), last_update := 0, is_lost := lost,
    lost_time := if lost then some 1 else none }

/-- C10: whenever the bbox-area to frame-area ratio lies in none of the
configured half-open `[min, max)` proximity-zone intervals — in particular
whenever it is at least 1.0, since the warning zone excludes its upper
bound — `get_proximity_zone` returns `"safe"`. -/
theorem C10_full_frame_is_safe (obj : TrackedObject) (fw fh : ℚ) :
    ((∀ z ∈ PROXIMITY_ZONES,
        ¬ (z.2.min ≤ (obj.bbox.w * obj.bbox.h) / (fw * fh) ∧
           (obj.bbox.w * obj.bbox.h) / (fw * fh) < z.2.max)) →
      get_proximity_zone obj fw fh = "safe") ∧
    (1 ≤ (obj.bbox.w * obj.bbox.h) / (fw * fh) →
      get_proximity_zone obj fw fh = "safe") := by
  set r := (obj.bbox.w * obj.bbox.h) / (fw * fh) with hr
  have hzone : ∀ (h1 : ¬ ((0:ℚ) ≤ r ∧ r < 3/10)) (h2 : ¬ ((3/10:ℚ) ≤ r ∧ r < 6/10))
      (h3 : ¬ ((6/10:ℚ) ≤ r ∧ r < 1)), get_proximity_zone obj fw fh = "safe" := by
    intro h1 h2 h3
    simp only [get_proximity_zone, PROXIMITY_ZONES, findZone, ← hr]
    rw [if_neg h1, if_neg h2, if_neg h3]
  constructor
  · intro h
    exact hzone (h ("safe", ⟨0, 3/10, (0, 255, 0)⟩) (by simp [PROXIMITY_ZONES]))
      (h ("caution", ⟨3/10, 6/10, (0, 255, 255)⟩) (by simp [PROXIMITY_ZONES]))
      (h ("warning", ⟨6/10, 1, (0, 0, 255)⟩) (by simp [PROXIMITY_ZONES]))
  · intro h
    exact hzone (fun hc => by linarith [hc.2]) (fun hc => by linarith [hc.2])
      (fun hc => by linarith [hc.2])

/-- C10 witness: an object covering 4× the frame area is classified
`"safe"`. -/
theorem C10_full_frame_is_safe_witness :
    (1:ℚ) ≤ (((⟨0, 0, 100, 100⟩ : Bbox).w * (⟨0, 0, 100, 100⟩ : Bbox).h) / (50 * 50)) ∧
    get_proximity_zone
      { id := 0, label := "wall", bbox := ⟨0, 0, 100, 100⟩, hasTracker := false,
        confidence := 1, audio_signature := ⟨"tone", 330, "sine"⟩,
        color := (0, 0, 0), last_update := 0 } 50 50 = "safe" :=
  ⟨by norm_num,
   (C10_full_frame_is_safe
      { id := 0, label := "wall", bbox := ⟨0, 0, 100, 100⟩, hasTracker := false,
        confidence := 1, audio_signature := ⟨"tone", 330, "sine"⟩,
        color := (0, 0, 0), last_update := 0 } 50 50).2 (by norm_num)⟩

/-- A filtered list is strictly shorter exactly when some element fails the
predicate. -/
theorem length_filter_lt_iff_exists_not {α : Type} (p : α → Bool) (l : List α) :
    (l.filter p).length < l.length ↔ ∃ x ∈ l, ¬ p x := by
  induction l with
  | nil => simp
  | cons a l ih =>
    by_cases hpa : p a
    · simp [List.filter_cons, hpa, ih]
    · simp only [List.filter_cons, hpa, Bool.false_eq_true, if_false]
      constructor
      · intro _
        exact ⟨a, List.mem_cons_self a l, by simp [hpa]⟩
      · intro _
        exact Nat.lt_succ_of_le (List.length_filter_le p l)

/-- C5 counterexample: an object whose `last_verified` age equals `max_age`
exactly is removed by `cleanup_stale_trackers` (and the call reports a
removal), although its age is not *more than* `max_age` as the claim
requires for removal. -/
theorem C5_cleanup_boundary_cex :
    (cleanup_stale_trackers 30 30
        [{ id := 0, label := "cup", bbox := ⟨0, 0, 10, 10⟩, hasTracker := false,
           confidence := 1, audio_signature := ⟨"tone", 330, "sine"⟩,
           color := (0, 0, 0), last_update := 0, last_verified := 0 }]).1 = [] ∧
    (cleanup_stale_trackers 30 30
        [{ id := 0, label := "cup", bbox := ⟨0, 0, 10, 10⟩, hasTracker := false,
           confidence := 1, audio_signature := ⟨"tone", 330, "sine"⟩,
           color := (0, 0, 0), last_update := 0, last_verified := 0 }]).2 = true ∧
    ¬ ((30 : ℚ) - 0 > 30) := by
  refine ⟨?_, ?_, by norm_num⟩ <;>
    simp [cleanup_stale_trackers, List.filter]

/-- C5 (amended): `cleanup_stale_trackers(max_age)` removes exactly those
objects whose `last_verified` age is at least `max_age` (the kept objects
are exactly those with `now - last_verified < max_age`), and it returns
true if and only if at least one object was removed. -/
theorem C5_cleanup_stale_characterization (now max_age : ℚ)
    (objects : List TrackedObject) :
    (∀ o ∈ objects,
       (o ∈ (cleanup_stale_trackers now max_age objects).1 ↔
         now - o.last_verified < max_age)) ∧
    (∀ o ∈ (cleanup_stale_trackers now max_age objects).1, o ∈ objects) ∧
    ((cleanup_stale_trackers now max_age objects).2 = true ↔
       ∃ o ∈ objects, ¬ (now - o.last_verified < max_age)) := by
  refine ⟨?_, ?_, ?_⟩
  · intro o ho
    simp [cleanup_stale_trackers, List.mem_filter, ho]
  · intro o ho
    exact (List.mem_filter.mp ho).1
  · simp only [cleanup_stale_trackers, decide_eq_true_eq]
    rw [length_filter_lt_iff_exists_not]
    constructor
    · rintro ⟨x, hx, hpx⟩
      exact ⟨x, hx, by simpa using hpx⟩
    · rintro ⟨x, hx, hpx⟩
      exact ⟨x, hx, by simpa using hpx⟩

/-- C5 witness: at age 40 > 30 the object is evicted and the call reports
a removal; at age 10 < 30 it is retained. -/
theorem C5_cleanup_stale_characterization_witness :
    ({ id := 0, label := "cup", bbox := ⟨0, 0, 10, 10⟩, hasTracker := false,
       confidence := 1, audio_signature := ⟨"tone", 330, "sine"⟩,
       color := (0, 0, 0), last_update := 0,
       last_verified := 30 : TrackedObject } ∈
      (cleanup_stale_trackers 40 30
        [{ id := 0, label := "cup", bbox := ⟨0, 0, 10, 10⟩, hasTracker := false,
           confidence := 1, audio_signature := ⟨"tone", 330, "sine"⟩,
           color := (0, 0, 0), last_update := 0,
           last_verified := 30 : TrackedObject }]).1 ↔
      (40 : ℚ) - 30 < 30) :=
  (C5_cleanup_stale_characterization 40 30 _).1 _ (List.mem_singleton.mpr rfl)

/-- C9: `attempt_local_recovery` fails (no bbox) when the template is
absent or either template dimension exceeds the corresponding frame
dimension; otherwise it succeeds exactly when the best
template-matching score exceeds 0.7, returning a bbox at the best-match
location with the template's original width and height, and fails
otherwise. -/
theorem C9_local_recovery_characterization (frame : Frame) (obj : TrackedObject)
    (max_val : ℚ) (max_loc : ℤ × ℤ) :
    (obj.templateDims = none →
      attempt_local_recovery frame obj max_val max_loc = (false, none)) ∧
    (∀ h_templ w_templ, obj.templateDims = some (h_templ, w_templ) →
      ((h_templ > frame.height ∨ w_templ > frame.width) →
        attempt_local_recovery frame obj max_val max_loc = (false, none)) ∧
      (h_templ ≤ frame.height → w_templ ≤ frame.width →
        (max_val > 7/10 →
          attempt_local_recovery frame obj max_val max_loc =
            (true, some ⟨(max_loc.1 : ℚ), (max_loc.2 : ℚ),
                         (w_templ : ℚ), (h_templ : ℚ)⟩)) ∧
        (¬ (max_val > 7/10) →
          attempt_local_recovery frame obj max_val max_loc = (false, none)))) := by
  refine ⟨?_, ?_⟩
  · intro h
    simp [attempt_local_recovery, h]
  · intro h_templ w_templ ht
    refine ⟨?_, ?_⟩
    · intro hbig
      simp [attempt_local_recovery, ht, hbig]
    · intro hh hw
      have hnot : ¬ (h_templ > frame.height ∨ w_templ > frame.width) := by
        push_neg
        exact ⟨hh, hw⟩
      refine ⟨?_, ?_⟩
      · intro hscore
        simp [attempt_local_recovery, ht, hnot, hscore]
      · intro hscore
        simp [attempt_local_recovery, ht, hnot, hscore]

/-- C9 witness: a 20×30 template inside a 100×100 frame with best score
0.8 at (5, 7) is recovered as the bbox (5, 7, 30, 20). -/
theorem C9_local_recovery_characterization_witness :
    attempt_local_recovery ⟨100, 100⟩
      { id := 0, label := "cup", bbox := ⟨0, 0, 10, 10⟩, hasTracker := false,
        confidence := 1, audio_signature := ⟨"tone", 330, "sine"⟩,
        color := (0, 0, 0), last_update := 0,
        templateDims := some (20, 30) } (8/10) (5, 7) =
      (true, some ⟨5, 7, 30, 20⟩) := by
  have h := ((C9_local_recovery_characterization ⟨100, 100⟩
      { id := 0, label := "cup", bbox := ⟨0, 0, 10, 10⟩, hasTracker := false,
        confidence := 1, audio_signature := ⟨"tone", 330, "sine"⟩,
        color := (0, 0, 0), last_update := 0,
        templateDims := some (20, 30) } (8/10) (5, 7)).2 20 30 rfl).2
      (by norm_num) (by norm_num)
  simpa using h.1 (by norm_num)

/-- The distance for a 600×600 box is the unclamped square root. -/
theorem hrtfDist_large : hrtfDist 360000 = Real.sqrt (460800 / 360001) := by
  have harg : ((hrtfMaxArea : ℝ)) / (((360000 : ℚ) : ℝ) + 1) = 460800 / 360001 := by
    norm_num [hrtfMaxArea]
  have h1 : (1 : ℝ) ≤ Real.sqrt (460800 / 360001) :=
    (Real.le_sqrt (by norm_num) (by norm_num)).mpr (by norm_num)
  have h2 : Real.sqrt (460800 / 360001) < 2 :=
    (Real.sqrt_lt' (by norm_num)).mpr (by norm_num)
  rw [hrtfDist, harg, min_eq_right (by linarith), max_eq_right (by linarith)]

/-- The distance for a 200×200 box is the unclamped square root. -/
theorem hrtfDist_mid : hrtfDist 40000 = Real.sqrt (460800 / 40001) := by
  have harg : ((hrtfMaxArea : ℝ)) / (((40000 : ℚ) : ℝ) + 1) = 460800 / 40001 := by
    norm_num [hrtfMaxArea]
  have h1 : (2 : ℝ) < Real.sqrt (460800 / 40001) :=
    (Real.lt_sqrt (by norm_num)).mpr (by norm_num)
  have h2 : Real.sqrt (460800 / 40001) < 10 :=
    (Real.sqrt_lt' (by norm_num)).mpr (by norm_num)
  rw [hrtfDist, harg, min_eq_right (by linarith), max_eq_right (by linarith)]

/-- The distance for a 50×50 box clamps at the 10.0 ceiling. -/
theorem hrtfDist_small : hrtfDist 2500 = 10 := by
  have harg : ((hrtfMaxArea : ℝ)) / (((2500 : ℚ) : ℝ) + 1) = 460800 / 2501 := by
    norm_num [hrtfMaxArea]
  have h1 : (10 : ℝ) < Real.sqrt (460800 / 2501) :=
    (Real.lt_sqrt (by norm_num)).mpr (by norm_num)
  rw [hrtfDist, harg, min_eq_left (by linarith), max_eq_right (by norm_num)]
  norm_num

/-- C6: with the 1280×720 reference frame, the spatial gains for bbox
areas 600×600, 200×200, 50×50 are strictly decreasing; the largest gain
is within 0.2 of 1.0 and the smallest within 0.2 of 0.1. -/
theorem C6_gain_monotonicity :
    hrtfBaseGain 360000 > hrtfBaseGain 40000 ∧
    hrtfBaseGain 40000 > hrtfBaseGain 2500 ∧
    |hrtfBaseGain 360000 - 1| ≤ 2/10 ∧
    |hrtfBaseGain 2500 - 1/10| ≤ 2/10 := by
  have s1lb : (1 : ℝ) ≤ Real.sqrt (460800 / 360001) :=
    (Real.le_sqrt (by norm_num) (by norm_num)).mpr (by norm_num)
  have s1ub : Real.sqrt (460800 / 360001) < 2 :=
    (Real.sqrt_lt' (by norm_num)).mpr (by norm_num)
  have s2lb : (2 : ℝ) < Real.sqrt (460800 / 40001) :=
    (Real.lt_sqrt (by norm_num)).mpr (by norm_num)
  have s2ub : Real.sqrt (460800 / 40001) < 10 :=
    (Real.sqrt_lt' (by norm_num)).mpr (by norm_num)
  have g1 : hrtfBaseGain 360000 = 1 := by
    rw [hrtfBaseGain, hrtfDist_large]
    have hpos : (0 : ℝ) < Real.sqrt (460800 / 360001) * 0.5 := by positivity
    have hlt : Real.sqrt (460800 / 360001) * 0.5 < 1 := by linarith
    have hge : (1.0 : ℝ) ≤ 1.0 / (Real.sqrt (460800 / 360001) * 0.5) := by
      rw [le_div_iff₀ hpos]
      linarith
    rw [min_eq_left hge, max_eq_right (by norm_num)]
    norm_num
  have hpos2 : (0 : ℝ) < Real.sqrt (460800 / 40001) * 0.5 := by positivity
  have g2 : hrtfBaseGain 40000 = 1.0 / (Real.sqrt (460800 / 40001) * 0.5) := by
    rw [hrtfBaseGain, hrtfDist_mid]
    have hle : 1.0 / (Real.sqrt (460800 / 40001) * 0.5) ≤ 1.0 := by
      rw [show (1.0 : ℝ) = 1 from by norm_num, div_le_one hpos2]
      linarith
    have hge : (0.1 : ℝ) ≤ 1.0 / (Real.sqrt (460800 / 40001) * 0.5) := by
      rw [le_div_iff₀ hpos2]
      linarith
    rw [min_eq_right hle, max_eq_right hge]
  have g3 : hrtfBaseGain 2500 = 0.2 := by
    rw [hrtfBaseGain, hrtfDist_small]
    norm_num
  have g2lb : (0.2 : ℝ) < 1.0 / (Real.sqrt (460800 / 40001) * 0.5) := by
    rw [lt_div_iff₀ hpos2]
    linarith
  have g2ub : 1.0 / (Real.sqrt (460800 / 40001) * 0.5) < 1 := by
    rw [div_lt_one hpos2]
    linarith
  refine ⟨by rw [g1, g2]; linarith, by rw [g2, g3]; linarith, ?_, ?_⟩
  · rw [g1]
    norm_num
  · rw [g3]
    rw [abs_le]
    norm_num

/-- The running `max_threat` fold is at least its seed. -/
theorem maxThreat_seed_le (l : List TrackedObject) (a : ℚ) :
    a ≤ l.foldl (fun m o => max m o.threat_score) a := by
  induction l generalizing a with
  | nil => exact le_refl a
  | cons o l ih => exact le_trans (le_max_left a o.threat_score) (ih _)

/-- The running `max_threat` fold bounds every member's score. -/
theorem maxThreat_mem_le (l : List TrackedObject) (a : ℚ) (o : TrackedObject)
    (ho : o ∈ l) : o.threat_score ≤ l.foldl (fun m p => max m p.threat_score) a := by
  induction l generalizing a with
  | nil => cases ho
  | cons p l ih =>
    rcases List.mem_cons.mp ho with h | h
    · subst h
      exact le_trans (le_max_right a o.threat_score) (maxThreat_seed_le l _)
    · exact ih _ h

/-- The running `max_threat` fold returns its seed or some member's score. -/
theorem maxThreat_choice (l : List TrackedObject) (a : ℚ) :
    l.foldl (fun m p => max m p.threat_score) a = a ∨
    ∃ o ∈ l, l.foldl (fun m p => max m p.threat_score) a = o.threat_score := by
  induction l generalizing a with
  | nil => exact Or.inl rfl
  | cons p l ih =>
    rcases ih (max a p.threat_score) with h | ⟨o, ho, h⟩
    · rcases max_choice a p.threat_score with hm | hm
      · exact Or.inl (by simpa [hm] using h)
      · exact Or.inr ⟨p, List.mem_cons_self p l, by simpa [hm] using h⟩
    · exact Or.inr ⟨o, List.mem_cons_of_mem p ho, h⟩

/-- C7: with nonnegative threat scores, `max_threat` computed by the audio
scene update is the maximum score over the snapshot; an object scoring
below 80% of it gets its base distance gain multiplied by 0.3, an object
scoring at least 80% of it — in particular a maximum-threat object —
keeps its unducked base gain. -/
theorem C7_threat_ducking (objects : List TrackedObject) (o : TrackedObject)
    (ho : o ∈ objects) (h0 : ∀ p ∈ objects, 0 ≤ p.threat_score) :
    (∃ p ∈ objects, p.threat_score = maxThreat objects) ∧
    (∀ p ∈ objects, p.threat_score ≤ maxThreat objects) ∧
    (o.threat_score < maxThreat objects * (8/10) →
      hrtfFinalGain objects o = hrtfBaseGain (o.bbox.w * o.bbox.h) * 0.3) ∧
    (maxThreat objects * (8/10) ≤ o.threat_score →
      hrtfFinalGain objects o = hrtfBaseGain (o.bbox.w * o.bbox.h)) ∧
    ((∀ p ∈ objects, p.threat_score ≤ o.threat_score) →
      hrtfFinalGain objects o = hrtfBaseGain (o.bbox.w * o.bbox.h)) := by
  have hmem_le : ∀ p ∈ objects, p.threat_score ≤ maxThreat objects :=
    fun p hp => maxThreat_mem_le objects 0 p hp
  have hattained : ∃ p ∈ objects, p.threat_score = maxThreat objects := by
    rcases maxThreat_choice objects 0 with h | ⟨p, hp, h⟩
    · refine ⟨o, ho, le_antisymm (by simpa [maxThreat, h] using hmem_le o ho) ?_⟩
      simpa [maxThreat, h] using h0 o ho
    · exact ⟨p, hp, h.symm⟩
  have hM0 : 0 ≤ maxThreat objects := maxThreat_seed_le objects 0
  have hduck : o.threat_score < maxThreat objects * (8/10) →
      hrtfFinalGain objects o = hrtfBaseGain (o.bbox.w * o.bbox.h) * 0.3 := by
    intro h
    simp only [hrtfFinalGain, if_pos h]
  have hkeep : maxThreat objects * (8/10) ≤ o.threat_score →
      hrtfFinalGain objects o = hrtfBaseGain (o.bbox.w * o.bbox.h) := by
    intro h
    simp only [hrtfFinalGain, if_neg (not_lt.mpr h)]
  refine ⟨hattained, hmem_le, hduck, hkeep, ?_⟩
  intro htop
  apply hkeep
  rcases hattained with ⟨p, hp, hpeq⟩
  calc maxThreat objects * (8/10) ≤ maxThreat objects * 1 := by
        apply mul_le_mul_of_nonneg_left (by norm_num) hM0
    _ = p.threat_score := by rw [mul_one, hpeq]
    _ ≤ o.threat_score := htop p hp

/-- C7 witness: in a snapshot with threat scores `[1, 0.5, 0.1]` the
object scoring 0.5 is below `0.8 * max_threat` and its final gain is its
base gain times 0.3. -/
theorem C7_threat_ducking_witness :
    hrtfFinalGain
      [{ id := 0, label := "person", bbox := ⟨0, 0, 400, 400⟩, hasTracker := false,
         confidence := 1, audio_signature := ⟨"heartbeat", 80, "pulse"⟩,
         color := (0, 0, 0), last_update := 0, threat_score := 1 },
       { id := 1, label := "chair", bbox := ⟨0, 0, 200, 200⟩, hasTracker := false,
         confidence := 1, audio_signature := ⟨"click", 800, "square"⟩,
         color := (0, 0, 0), last_update := 0, threat_score := 1/2 },
       { id := 2, label := "cup", bbox := ⟨0, 0, 50, 50⟩, hasTracker := false,
         confidence := 1, audio_signature := ⟨"tone", 660, "sine"⟩,
         color := (0, 0, 0), last_update := 0, threat_score := 1/10 }]
      { id := 1, label := "chair", bbox := ⟨0, 0, 200, 200⟩, hasTracker := false,
        confidence := 1, audio_signature := ⟨"click", 800, "square"⟩,
        color := (0, 0, 0), last_update := 0, threat_score := 1/2 } =
    hrtfBaseGain (200 * 200) * 0.3 := by
  have h := (C7_threat_ducking
      [{ id := 0, label := "person", bbox := ⟨0, 0, 400, 400⟩, hasTracker := false,
         confidence := 1, audio_signature := ⟨"heartbeat", 80, "pulse"⟩,
         color := (0, 0, 0), last_update := 0, threat_score := 1 },
       { id := 1, label := "chair", bbox := ⟨0, 0, 200, 200⟩, hasTracker := false,
         confidence := 1, audio_signature := ⟨"click", 800, "square"⟩,
         color := (0, 0, 0), last_update := 0, threat_score := 1/2 },
       { id := 2, label := "cup", bbox := ⟨0, 0, 50, 50⟩, hasTracker := false,
         confidence := 1, audio_signature := ⟨"tone", 660, "sine"⟩,
         color := (0, 0, 0), last_update := 0, threat_score := 1/10 }]
      { id := 1, label := "chair", bbox := ⟨0, 0, 200, 200⟩, hasTracker := false,
        confidence := 1, audio_signature := ⟨"click", 800, "square"⟩,
        color := (0, 0, 0), last_update := 0, threat_score := 1/2 }
      (by simp) ?_).2.2.1 ?_
  · simpa using h
  · intro p hp
    simp only [List.mem_cons, List.not_mem_nil, or_false] at hp
    rcases hp with rfl | rfl | rfl <;> norm_num
  · have hM : maxThreat
        [{ id := 0, label := "person", bbox := ⟨0, 0, 400, 400⟩, hasTracker := false,
           confidence := 1, audio_signature := ⟨"heartbeat", 80, "pulse"⟩,
           color := (0, 0, 0), last_update := 0, threat_score := 1 },
         { id := 1, label := "chair", bbox := ⟨0, 0, 200, 200⟩, hasTracker := false,
           confidence := 1, audio_signature := ⟨"click", 800, "square"⟩,
           color := (0, 0, 0), last_update := 0, threat_score := 1/2 },
         { id := 2, label := "cup", bbox := ⟨0, 0, 50, 50⟩, hasTracker := false,
           confidence := 1, audio_signature := ⟨"tone", 660, "sine"⟩,
           color := (0, 0, 0), last_update := 0, threat_score := 1/10 }] = 1 := by
      simp [maxThreat]
      norm_num [max_def]
    rw [hM]
    norm_num

/-- The running peak fold is at least its seed. -/
theorem peakFold_seed_le (l : List ℝ) (a : ℝ) :
    a ≤ l.foldl (fun m x => max m |x|) a := by
  induction l generalizing a with
  | nil => exact le_refl a
  | cons x l ih => exact le_trans (le_max_left a |x|) (ih _)

/-- The running peak fold bounds every member's absolute value. -/
theorem peakFold_mem_le (l : List ℝ) (a : ℝ) (x : ℝ) (hx : x ∈ l) :
    |x| ≤ l.foldl (fun m y => max m |y|) a := by
  induction l generalizing a with
  | nil => cases hx
  | cons y l ih =>
    rcases List.mem_cons.mp hx with h | h
    · subst h
      exact le_trans (le_max_right a |x|) (peakFold_seed_le l _)
    · exact ih _ h

/-- C8: for every set of concurrently active sources, the stereo output of
one mixing callback has peak sample magnitude at most 1.0, and both
channels are the summed mix rescaled uniformly by one common positive
factor (1 when no rescaling was needed, `1/max_val` otherwise) rather
than clamped per sample. -/
theorem C8_mix_never_clips (sources : List AudioSource) (frames : ℕ)
    (hframes : 0 < frames) :
    (∃ c : ℝ, 0 < c ∧
       (audio_callback sources frames).1 =
         (mixChannel leftGain sources frames).map (· * c) ∧
       (audio_callback sources frames).2 =
         (mixChannel rightGain sources frames).map (· * c)) ∧
    (∀ x ∈ (audio_callback sources frames).1, |x| ≤ 1) ∧
    (∀ x ∈ (audio_callback sources frames).2, |x| ≤ 1) := by
  have _hf := hframes
  set L := mixChannel leftGain sources frames with hL
  set R := mixChannel rightGain sources frames with hR
  set m := peakOf L R with hm
  have hbound : ∀ x, x ∈ L ∨ x ∈ R → |x| ≤ m := by
    intro x hx
    have hx' : x ∈ L ++ R := List.mem_append.mpr hx
    exact peakFold_mem_le (L ++ R) 0 x hx'
  by_cases hgt : m > 1
  · have hmpos : (0 : ℝ) < m := lt_trans one_pos hgt
    have hcall : audio_callback sources frames = (L.map (· / m), R.map (· / m)) := by
      rw [audio_callback]
      simp only [← hL, ← hR, ← hm, if_pos hgt]
    refine ⟨⟨m⁻¹, inv_pos.mpr hmpos, ?_, ?_⟩, ?_, ?_⟩
    · rw [hcall]
      simp [div_eq_mul_inv]
    · rw [hcall]
      simp [div_eq_mul_inv]
    · rw [hcall]
      intro x hx
      rcases List.mem_map.mp hx with ⟨y, hy, rfl⟩
      rw [abs_div, abs_of_pos hmpos, div_le_one hmpos]
      exact hbound y (Or.inl hy)
    · rw [hcall]
      intro x hx
      rcases List.mem_map.mp hx with ⟨y, hy, rfl⟩
      rw [abs_div, abs_of_pos hmpos, div_le_one hmpos]
      exact hbound y (Or.inr hy)
  · have hcall : audio_callback sources frames = (L, R) := by
      rw [audio_callback]
      simp only [← hL, ← hR, ← hm, if_neg hgt]
    have hle1 : m ≤ 1 := not_lt.mp hgt
    refine ⟨⟨1, one_pos, ?_, ?_⟩, ?_, ?_⟩
    · rw [hcall]
      simp
    · rw [hcall]
      simp
    · rw [hcall]
      intro x hx
      exact le_trans (hbound x (Or.inl hx)) hle1
    · rw [hcall]
      intro x hx
      exact le_trans (hbound x (Or.inr hx)) hle1

/-- C8 witness: a single looping sine-signature source mixed for one
frame stays within the unit peak bound. -/
theorem C8_mix_never_clips_witness :
    0 < 1 ∧
    (∀ x ∈ (audio_callback [{ azimuth := 40, volume := 1, signature := [1, -1],
                              position := 0 }] 1).1, |x| ≤ 1) ∧
    (∀ x ∈ (audio_callback [{ azimuth := 40, volume := 1, signature := [1, -1],
                              position := 0 }] 1).2, |x| ≤ 1) :=
  ⟨Nat.one_pos,
   (C8_mix_never_clips [{ azimuth := 40, volume := 1, signature := [1, -1],
                          position := 0 }] 1 Nat.one_pos).2.1,
   (C8_mix_never_clips [{ azimuth := 40, volume := 1, signature := [1, -1],
                          position := 0 }] 1 Nat.one_pos).2.2⟩

/-- The max-threat fold returns its seed or a member of the list. -/
theorem pickMax_mem (l : List TrackedObject) (b : TrackedObject) :
    l.foldl (fun best p => if p.threat_score > best.threat_score then p else best) b = b ∨
    l.foldl (fun best p => if p.threat_score > best.threat_score then p else best) b ∈ l := by
  induction l generalizing b with
  | nil => exact Or.inl rfl
  | cons p l ih =>
    rcases ih (if p.threat_score > b.threat_score then p else b) with h | h
    · by_cases hc : p.threat_score > b.threat_score
      · refine Or.inr ?_
        rw [List.foldl_cons, h, if_pos hc]
        exact List.mem_cons_self p l
      · refine Or.inl ?_
        rw [List.foldl_cons, h, if_neg hc]
    · exact Or.inr (List.mem_cons_of_mem p (by rw [List.foldl_cons]; exact h))

/-- `get_main_threat` returns an element of the collection. -/
theorem get_main_threat_mem (l : List TrackedObject) (mt : TrackedObject)
    (h : get_main_threat l = some mt) : mt ∈ l := by
  cases l with
  | nil => cases h
  | cons o rest =>
    have hmt : rest.foldl
        (fun best p => if p.threat_score > best.threat_score then p else best) o = mt :=
      Option.some_injective _ h
    rcases pickMax_mem rest o with h' | h'
    · rw [hmt] at h'
      exact h' ▸ List.mem_cons_self o rest
    · rw [hmt] at h'
      exact List.mem_cons_of_mem o h'

/-- C4: with positive lost timestamps (as produced by `time.time()`),
`check_lost_threats` returns true exactly when the maximum-threat object
is lost with a recorded `lost_time` more than 2 seconds ago and has
`threat_score > 0.3`; on returning true it removes that object (every
survivor has a different id, so a following call can only flag a
different object), and in every other case it returns false and leaves
the collection unchanged. -/
theorem C4_lost_threat_rescan (now : ℚ) (objects : List TrackedObject)
    (hpos : ∀ o ∈ objects, ∀ t, o.lost_time = some t → 0 < t) :
    ((check_lost_threats now objects).1 = true ↔
      ∃ mt, get_main_threat objects = some mt ∧ mt.is_lost = true ∧
        (∃ t, mt.lost_time = some t ∧ now - t > 2) ∧ mt.threat_score > 3/10) ∧
    ((check_lost_threats now objects).1 = true →
      ∀ mt, get_main_threat objects = some mt →
        ∀ o ∈ (check_lost_threats now objects).2, o.id ≠ mt.id) ∧
    ((check_lost_threats now objects).1 = false →
      (check_lost_threats now objects).2 = objects) ∧
    ((check_lost_threats now objects).1 = true →
      ∀ mt, get_main_threat objects = some mt →
        ∀ now2, (check_lost_threats now2 (check_lost_threats now objects).2).1 = true →
          ∃ mt2, get_main_threat (check_lost_threats now objects).2 = some mt2 ∧
            mt2.id ≠ mt.id) := by
  have hsecond : ∀ (S : List TrackedObject) (now2 : ℚ),
      (check_lost_threats now2 S).1 = true →
      ∃ mt2, get_main_threat S = some mt2 ∧ mt2 ∈ S := by
    intro S now2 htrue
    cases hg : get_main_threat S with
    | none => simp [check_lost_threats, hg] at htrue
    | some mt2 => exact ⟨mt2, rfl, get_main_threat_mem S mt2 hg⟩
  cases hgmt : get_main_threat objects with
  | none =>
    refine ⟨?_, ?_, ?_, ?_⟩ <;> simp [check_lost_threats, hgmt]
  | some mt =>
    have hmem : mt ∈ objects := get_main_threat_mem objects mt hgmt
    by_cases h1 : mt.is_lost = true ∧ optTruthy mt.lost_time = true
    · by_cases h2 : mt.threat_score > 3/10 ∧ now - mt.lost_time.getD 0 > 2
      · have hres : check_lost_threats now objects =
            (true, remove_object objects mt.id) := by
          simp [check_lost_threats, hgmt, h1, h2]
        have hfilter : ∀ o ∈ remove_object objects mt.id, o.id ≠ mt.id := by
          intro o ho
          have := (List.mem_filter.mp ho).2
          simpa using this
        refine ⟨?_, ?_, ?_, ?_⟩
        · rw [hres]
          simp only [true_iff]
          obtain ⟨t, ht⟩ : ∃ t, mt.lost_time = some t := by
            cases hlt : mt.lost_time with
            | none => rw [hlt] at h1; simp [optTruthy] at h1
            | some t => exact ⟨t, rfl⟩
          refine ⟨mt, rfl, h1.1, ⟨t, ht, ?_⟩, h2.1⟩
          have := h2.2
          rw [ht] at this
          simpa using this
        · intro _ mt' hmt' o ho
          have hmt'eq : mt' = mt := (Option.some_injective _ hmt').symm
          rw [hmt'eq]
          rw [hres] at ho
          exact hfilter o ho
        · intro hfalse
          rw [hres] at hfalse
          cases hfalse
        · intro _ mt' hmt' now2 htrue2
          have hmt'eq : mt' = mt := (Option.some_injective _ hmt').symm
          obtain ⟨mt2, hg2, hmem2⟩ :=
            hsecond (check_lost_threats now objects).2 now2 htrue2
          refine ⟨mt2, hg2, ?_⟩
          rw [hmt'eq]
          rw [hres] at hmem2
          exact hfilter mt2 hmem2
      · have hres : check_lost_threats now objects = (false, objects) := by
          simp only [check_lost_threats, hgmt, if_pos h1, if_neg h2]
        refine ⟨?_, ?_, ?_, ?_⟩
        · rw [hres]
          simp only [Bool.false_eq_true, false_iff]
          rintro ⟨mt', hmt', _, ⟨t, ht, helapsed⟩, hscore⟩
          have hmt'eq : mt' = mt := (Option.some_injective _ hmt').symm
          subst hmt'eq
          apply h2
          refine ⟨hscore, ?_⟩
          rw [ht]
          simpa using helapsed
        · intro htrue
          rw [hres] at htrue
          cases htrue
        · intro _
          rw [hres]
        · intro htrue
          rw [hres] at htrue
          cases htrue
    · have hres : check_lost_threats now objects = (false, objects) := by
        simp only [check_lost_threats, hgmt, if_neg h1]
      refine ⟨?_, ?_, ?_, ?_⟩
      · rw [hres]
        simp only [Bool.false_eq_true, false_iff]
        rintro ⟨mt', hmt', hlost, ⟨t, ht, _⟩, _⟩
        have hmt'eq : mt' = mt := (Option.some_injective _ hmt').symm
        subst hmt'eq
        apply h1
        refine ⟨hlost, ?_⟩
        have htpos : 0 < t := hpos mt' hmem t ht
        rw [ht]
        simp [optTruthy]
        exact ne_of_gt htpos
      · intro htrue
        rw [hres] at htrue
        cases htrue
      · intro _
        rw [hres]
      · intro htrue
        rw [hres] at htrue
        cases htrue

/-- C4 witness: a single lost object (score 0.5, lost at t=1) triggers the
re-scan at t=4 and no surviving object carries its id. -/
theorem C4_lost_threat_rescan_witness :
    (check_lost_threats 4 [lostThreatDemo]).1 = true ∧
    ∀ o ∈ (check_lost_threats 4 [lostThreatDemo]).2, o.id ≠ lostThreatDemo.id := by
  have hpos : ∀ o ∈ [lostThreatDemo], ∀ t : ℚ, o.lost_time = some t → 0 < t := by
    intro o ho t ht
    rw [List.mem_singleton] at ho
    subst ho
    rw [show lostThreatDemo.lost_time = some 1 from rfl] at ht
    rw [show t = 1 from (Option.some_injective _ ht.symm)]
    norm_num
  have h := C4_lost_threat_rescan 4 [lostThreatDemo] hpos
  have hgmt : get_main_threat [lostThreatDemo] = some lostThreatDemo := rfl
  have htrue : (check_lost_threats 4 [lostThreatDemo]).1 = true := by
    apply h.1.mpr
    refine ⟨lostThreatDemo, hgmt, rfl, ⟨1, rfl, by norm_num⟩, ?_⟩
    rw [show lostThreatDemo.threat_score = 1/2 from rfl]
    norm_num
  exact ⟨htrue, h.2.1 htrue lostThreatDemo hgmt⟩

/-- C2: on every successful per-tick tracker update the object's threat
score becomes `0.7*size_score + 0.3*centrality_score` computed from the
new bbox (no semantic term), the updated collection is the per-object map,
and the threat score is untouched on a failed update, a tracker
exception, or for an object without a tracker. -/
theorem C2_tick_threat_formula (frame : Frame) (now : ℚ) (step : ℕ → TrackerStep)
    (objects : List TrackedObject) :
    (update_trackers frame now step objects).1 =
      objects.map (updateObj frame now step) ∧
    ∀ o : TrackedObject,
      (o.hasTracker = true → ∀ bbox, step o.id = .ok bbox →
        (updateObj frame now step o).threat_score =
          (7/10) * min 1 ((bbox.w * bbox.h) /
              ((frame.height : ℚ) * (frame.width : ℚ) * (1/2))) +
          (3/10) * (1 - min 1 (|bbox.x + bbox.w / 2 - (frame.width : ℚ) / 2| /
              ((frame.width : ℚ) / 2)))) ∧
      (o.hasTracker = false →
        (updateObj frame now step o).threat_score = o.threat_score) ∧
      (o.hasTracker = true → step o.id = .fail →
        (updateObj frame now step o).threat_score = o.threat_score) ∧
      (o.hasTracker = true → step o.id = .err →
        (updateObj frame now step o).threat_score = o.threat_score) := by
  refine ⟨rfl, ?_⟩
  intro o
  refine ⟨?_, ?_, ?_, ?_⟩
  · intro hT bbox hstep
    simp only [updateObj, hT, Bool.true_eq_false, if_false, hstep]
    simp only [threatScoreOf]
    ring
  · intro hT
    simp only [updateObj, hT, if_true]
    by_cases hl : o.is_lost = false
    · rw [if_pos hl]
    · rw [if_neg hl]
  · intro hT hstep
    simp only [updateObj, hT, Bool.true_eq_false, if_false, hstep]
    by_cases hl : o.is_lost = false
    · rw [if_pos hl]
    · rw [if_neg hl]
  · intro hT hstep
    simp only [updateObj, hT, Bool.true_eq_false, if_false, hstep]

/-- C2 witness: a successful update to bbox (50,0,50,50) in a 100×100
frame yields threat score 0.7*0.5 + 0.3*0.5 = 0.5. -/
theorem C2_tick_threat_formula_witness :
    (updateObj ⟨100, 100⟩ 5 (fun _ => TrackerStep.ok ⟨50, 0, 50, 50⟩)
        trackedDemo).threat_score = 1/2 := by
  have h := ((C2_tick_threat_formula ⟨100, 100⟩ 5
      (fun _ => TrackerStep.ok ⟨50, 0, 50, 50⟩) [trackedDemo]).2
      trackedDemo).1 rfl ⟨50, 0, 50, 50⟩ rfl
  rw [h]
  norm_num [min_def, abs_of_nonneg]

/-- The detection-matching scan skips a prefix containing no object with
the detection's label. -/
theorem matchDetection_append_no_label (label : String) (bb : Bbox)
    (ctx : Option String) (now : ℚ) (pre rest : List TrackedObject)
    (hpre : ∀ p ∈ pre, p.label ≠ label) :
    matchDetection label bb ctx now (pre ++ rest) =
      (pre ++ (matchDetection label bb ctx now rest).1,
       (matchDetection label bb ctx now rest).2) := by
  induction pre with
  | nil => simp
  | cons p pre ih =>
    have hp : p.label ≠ label := hpre p (List.mem_cons_self p pre)
    have hrest : ∀ q ∈ pre, q.label ≠ label :=
      fun q hq => hpre q (List.mem_cons_of_mem p hq)
    simp [matchDetection, if_neg hp, ih hrest]

/-- When no same-label object overlaps the new bbox with IoU above 0.1,
the matching scan changes nothing and reports no match. -/
theorem matchDetection_no_match (label : String) (bb : Bbox)
    (ctx : Option String) (now : ℚ) (objs : List TrackedObject)
    (h : ∀ p ∈ objs, p.label = label → ¬ (compute_iou p.bbox bb > 1/10)) :
    matchDetection label bb ctx now objs = (objs, false) := by
  induction objs with
  | nil => rfl
  | cons o rest ih =>
    have hrest : ∀ p ∈ rest, p.label = label → ¬ (compute_iou p.bbox bb > 1/10) :=
      fun p hp => h p (List.mem_cons_of_mem o hp)
    by_cases hl : o.label = label
    · have hio : ¬ (compute_iou o.bbox bb > 1/10) := h o (List.mem_cons_self o rest) hl
      have hio6 : ¬ (compute_iou o.bbox bb > 6/10) := by
        intro hgt
        exact hio (by linarith)
      have hio' : compute_iou o.bbox bb ≤ 1/10 := not_lt.mp hio
      have hio6' : compute_iou o.bbox bb ≤ 6/10 := not_lt.mp hio6
      have hshould : (if o.is_lost then decide (compute_iou o.bbox bb > 1/10)
          else decide (compute_iou o.bbox bb > 6/10)) = false := by
        cases hml : o.is_lost <;> simp [hml, hio, hio6] <;> linarith
      simp only [matchDetection, if_pos hl, hshould, Bool.false_eq_true, if_false,
        if_neg hio, ih hrest]
    · simp only [matchDetection, if_neg hl, ih hrest]

/-- The matching scan reports a match exactly when some object carries
the detection's label with IoU above 0.1. -/
theorem matchDetection_matched_iff (label : String) (bb : Bbox)
    (ctx : Option String) (now : ℚ) (objs : List TrackedObject) :
    (matchDetection label bb ctx now objs).2 = true ↔
      ∃ p ∈ objs, p.label = label ∧ compute_iou p.bbox bb > 1/10 := by
  induction objs with
  | nil => simp [matchDetection]
  | cons o rest ih =>
    by_cases hl : o.label = label
    · by_cases hio : compute_iou o.bbox bb > 1/10
      · simp only [matchDetection, if_pos hl, if_pos hio]
        constructor
        · intro _
          exact ⟨o, List.mem_cons_self o rest, hl, hio⟩
        · intro _
          trivial
      · rcases hmd : matchDetection label bb ctx now rest with ⟨objs', m⟩
        simp only [matchDetection, if_pos hl, if_neg hio, hmd]
        rw [hmd] at ih
        simp only at ih
        rw [ih]
        constructor
        · rintro ⟨p, hp, hpl, hpio⟩
          exact ⟨p, List.mem_cons_of_mem o hp, hpl, hpio⟩
        · rintro ⟨p, hp, hpl, hpio⟩
          rcases List.mem_cons.mp hp with rfl | hp'
          · exact absurd hpio hio
          · exact ⟨p, hp', hpl, hpio⟩
    · rcases hmd : matchDetection label bb ctx now rest with ⟨objs', m⟩
      simp only [matchDetection, if_neg hl, hmd]
      rw [hmd] at ih
      simp only at ih
      rw [ih]
      constructor
      · rintro ⟨p, hp, hpl, hpio⟩
        exact ⟨p, List.mem_cons_of_mem o hp, hpl, hpio⟩
      · rintro ⟨p, hp, hpl, hpio⟩
        rcases List.mem_cons.mp hp with rfl | hp'
        · exact absurd hpl hl
        · exact ⟨p, hp', hpl, hpio⟩

/-- A one-detection batch with a valid converted bbox runs one matching
pass and, when unmatched, one `add_object`. -/
theorem process_detections_single (d : Detection) (frame : Frame) (now : ℚ)
    (st : OMState) (bb : Bbox)
    (hconv : convertDetection d.box_2d frame = some bb) :
    process_detections [d] frame now st =
      (if (matchDetection (parseLabel d.label).1 bb (parseLabel d.label).2 now
            st.objects).2 then
        ({ st with objects := (matchDetection (parseLabel d.label).1 bb
            (parseLabel d.label).2 now st.objects).1 }, 0)
       else
        ((add_object { st with objects := (matchDetection (parseLabel d.label).1 bb
            (parseLabel d.label).2 now st.objects).1 }
          (parseLabel d.label).1 bb (parseLabel d.label).2 now).1, 1)) := by
  simp only [process_detections, processOneDetection, hconv]
  by_cases hm : (matchDetection (parseLabel d.label).1 bb (parseLabel d.label).2 now
      st.objects).2 = true
  · simp [hm, hconv]
  · simp [hm, hconv]

/-- C1: for a detection whose parsed label equals the label of the (first)
matching existing object, `process_detections` replaces that object's bbox
with the converted bbox exactly when the object is lost with IoU > 0.1 or
actively tracked with IoU > 0.6; whenever IoU > 0.1 the object's lost
state is cleared (`is_lost := false`, `lost_time := None`), and with
IoU ≤ 0.1 the object is left completely unchanged. -/
theorem C1_reconciliation_policy (pre post : List TrackedObject)
    (o : TrackedObject) (d : Detection) (frame : Frame) (now : ℚ) (n : ℕ)
    (bb : Bbox)
    (hconv : convertDetection d.box_2d frame = some bb)
    (hlabel : (parseLabel d.label).1 = o.label)
    (hpre : ∀ p ∈ pre, p.label ≠ o.label) :
    ∃ o', (process_detections [d] frame now
        ⟨pre ++ o :: post, n⟩).1.objects[pre.length]? = some o' ∧
      o'.bbox = (if (o.is_lost = true ∧ compute_iou o.bbox bb > 1/10) ∨
          (o.is_lost = false ∧ compute_iou o.bbox bb > 6/10)
        then bb else o.bbox) ∧
      (compute_iou o.bbox bb > 1/10 →
        o'.is_lost = false ∧ o'.lost_time = none) ∧
      (¬ compute_iou o.bbox bb > 1/10 → o' = o) := by
  have hidx : ∀ (x : TrackedObject) (L2 : List TrackedObject),
      (pre ++ x :: L2)[pre.length]? = some x := by
    intro x L2
    rw [List.getElem?_append_right (le_refl pre.length), Nat.sub_self]
    simp
  have hidx2 : ∀ (x : TrackedObject) (L2 L3 : List TrackedObject),
      ((pre ++ x :: L2) ++ L3)[pre.length]? = some x := by
    intro x L2 L3
    rw [List.getElem?_append]
    rw [if_pos (by simp)]
    exact hidx x L2
  rw [process_detections_single d frame now _ bb hconv, hlabel]
  set ctx := (parseLabel d.label).2 with hctx
  have hmd := matchDetection_append_no_label o.label bb ctx now pre (o :: post) hpre
  by_cases hio : compute_iou o.bbox bb > 1/10
  · by_cases hlost : o.is_lost = true
    · have hstep : matchDetection o.label bb ctx now (o :: post) =
          ({ o with bbox := bb, last_verified := now, context := ctx,
                    is_lost := false, lost_time := none } :: post, true) := by
        simp only [matchDetection, eq_self_iff_true, if_true, hlost,
          decide_eq_true_eq, hio]
      rw [hstep] at hmd
      simp only [hmd, eq_self_iff_true, if_true]
      refine ⟨_, hidx _ post, ?_, fun _ => ⟨rfl, rfl⟩, ?_⟩
      · split_ifs with hcond
        · rfl
        · exact absurd (Or.inl ⟨hlost, by linarith⟩) hcond
      · intro hc
        exfalso
        exact hc hio
    · have hlost' : o.is_lost = false := by
        cases h : o.is_lost
        · rfl
        · exact absurd h hlost
      by_cases hio6 : compute_iou o.bbox bb > 6/10
      · have hstep : matchDetection o.label bb ctx now (o :: post) =
            ({ o with bbox := bb, last_verified := now, context := ctx,
                      is_lost := false, lost_time := none } :: post, true) := by
          simp only [matchDetection, eq_self_iff_true, if_true, hlost',
            Bool.false_eq_true, if_false, decide_eq_true_eq, hio6, hio]
        rw [hstep] at hmd
        simp only [hmd, eq_self_iff_true, if_true]
        refine ⟨_, hidx _ post, ?_, fun _ => ⟨rfl, rfl⟩, ?_⟩
        · split_ifs with hcond
          · rfl
          · exact absurd (Or.inr ⟨hlost', by linarith⟩) hcond
        · intro hc
          exfalso
          exact hc hio
      · have hstep : matchDetection o.label bb ctx now (o :: post) =
            ({ o with last_verified := now, context := ctx,
                      is_lost := false, lost_time := none } :: post, true) := by
          simp only [matchDetection, eq_self_iff_true, if_true, hlost',
            Bool.false_eq_true, if_false, decide_eq_true_eq, hio6, hio]
        rw [hstep] at hmd
        simp only [hmd, eq_self_iff_true, if_true]
        refine ⟨_, hidx _ post, ?_, fun _ => ⟨rfl, rfl⟩, ?_⟩
        · split_ifs with hcond
          · rcases hcond with ⟨h1, _⟩ | ⟨_, h6⟩
            · exact absurd h1 hlost
            · exact absurd h6 hio6
          · rfl
        · intro hc
          exfalso
          exact hc hio
  · have hio6 : ¬ compute_iou o.bbox bb > 6/10 := by
      intro hgt
      exact hio (by linarith)
    have hio' : compute_iou o.bbox bb ≤ 1/10 := not_lt.mp hio
    have hio6' : compute_iou o.bbox bb ≤ 6/10 := not_lt.mp hio6
    have hshould : (if o.is_lost then decide (compute_iou o.bbox bb > 1/10)
        else decide (compute_iou o.bbox bb > 6/10)) = false := by
      cases hml : o.is_lost <;> simp [hio, hio6] <;> linarith
    have hhead : matchDetection o.label bb ctx now (o :: post) =
        (o :: (matchDetection o.label bb ctx now post).1,
         (matchDetection o.label bb ctx now post).2) := by
      rcases hmd' : matchDetection o.label bb ctx now post with ⟨rest', m⟩
      simp only [matchDetection, if_pos rfl, hshould, Bool.false_eq_true, if_false,
        if_neg hio, hmd', ite_self]
    rw [hhead] at hmd
    simp only [hmd]
    have hcond : ¬ ((o.is_lost = true ∧ compute_iou o.bbox bb > 1/10) ∨
        (o.is_lost = false ∧ compute_iou o.bbox bb > 6/10)) := by
      rintro (⟨_, h⟩ | ⟨_, h⟩)
      · exact hio h
      · exact hio6 h
    by_cases hm : (matchDetection o.label bb ctx now post).2 = true
    · simp only [hm, if_true]
      refine ⟨o, hidx o _, by rw [if_neg hcond], ?_, fun _ => rfl⟩
      intro hc
      exact absurd hc hio
    · simp only [hm, Bool.false_eq_true, if_false, add_object]
      refine ⟨o, hidx2 o _ _, by rw [if_neg hcond], ?_, fun _ => rfl⟩
      intro hc
      exact absurd hc hio

/-- C1 witness: in a 1000×1000 frame, against an existing `cup` at
(0,0,10,10): an actively-tracked object keeps its bbox under a same-label
detection at IoU 0.5, gets the new bbox at IoU 0.8, and a lost object gets
the new bbox with its lost state cleared at IoU 0.2. -/
theorem C1_reconciliation_policy_witness :
    ((process_detections [⟨[0, 0, 5, 10], "cup"⟩] ⟨1000, 1000⟩ 9
        ⟨[cupDemo false], 1⟩).1.objects[0]?.map (fun o => o.bbox) =
      some ⟨0, 0, 10, 10⟩) ∧
    ((process_detections [⟨[0, 0, 8, 10], "cup"⟩] ⟨1000, 1000⟩ 9
        ⟨[cupDemo false], 1⟩).1.objects[0]?.map (fun o => o.bbox) =
      some ⟨0, 0, 10, 8⟩) ∧
    ((process_detections [⟨[0, 5, 10, 25], "cup"⟩] ⟨1000, 1000⟩ 9
        ⟨[cupDemo true], 1⟩).1.objects[0]?.map
          (fun o => (o.bbox, o.is_lost, o.lost_time)) =
      some (⟨5, 0, 20, 10⟩, false, none)) := by
  refine ⟨?_, ?_, ?_⟩
  · obtain ⟨o', h1, h2, h3, h4⟩ :=
      C1_reconciliation_policy [] [] (cupDemo false) ⟨[0, 0, 5, 10], "cup"⟩
        ⟨1000, 1000⟩ 9 1 ⟨0, 0, 10, 5⟩
        (by norm_num [convertDetection, intTrunc]) rfl (by simp)
    have hiou : compute_iou (cupDemo false).bbox ⟨0, 0, 10, 5⟩ = 1/2 := by
      norm_num [compute_iou, cupDemo, min_def, max_def]
    rw [show (process_detections [(⟨[0, 0, 5, 10], "cup"⟩ : Detection)] ⟨1000, 1000⟩ 9
        ⟨[cupDemo false], 1⟩).1.objects[0]? = some o' from h1, Option.map_some']
    rw [h2, if_neg]
    · rfl
    · rintro (⟨hfalse, _⟩ | ⟨_, hgt⟩)
      · simp [cupDemo] at hfalse
      · rw [hiou] at hgt
        norm_num at hgt
  · obtain ⟨o', h1, h2, h3, h4⟩ :=
      C1_reconciliation_policy [] [] (cupDemo false) ⟨[0, 0, 8, 10], "cup"⟩
        ⟨1000, 1000⟩ 9 1 ⟨0, 0, 10, 8⟩
        (by norm_num [convertDetection, intTrunc]) rfl (by simp)
    have hiou : compute_iou (cupDemo false).bbox ⟨0, 0, 10, 8⟩ = 4/5 := by
      norm_num [compute_iou, cupDemo, min_def, max_def]
    rw [show (process_detections [(⟨[0, 0, 8, 10], "cup"⟩ : Detection)] ⟨1000, 1000⟩ 9
        ⟨[cupDemo false], 1⟩).1.objects[0]? = some o' from h1, Option.map_some']
    rw [h2, if_pos (Or.inr ⟨rfl, by rw [hiou]; norm_num⟩)]
  · obtain ⟨o', h1, h2, h3, h4⟩ :=
      C1_reconciliation_policy [] [] (cupDemo true) ⟨[0, 5, 10, 25], "cup"⟩
        ⟨1000, 1000⟩ 9 1 ⟨5, 0, 20, 10⟩
        (by norm_num [convertDetection, intTrunc]) rfl (by simp)
    have hiou : compute_iou (cupDemo true).bbox ⟨5, 0, 20, 10⟩ = 1/5 := by
      norm_num [compute_iou, cupDemo, min_def, max_def]
    have hgt : compute_iou (cupDemo true).bbox ⟨5, 0, 20, 10⟩ > 1/10 := by
      rw [hiou]
      norm_num
    obtain ⟨hl, hlt⟩ := h3 hgt
    rw [show (process_detections [(⟨[0, 5, 10, 25], "cup"⟩ : Detection)] ⟨1000, 1000⟩ 9
        ⟨[cupDemo true], 1⟩).1.objects[0]? = some o' from h1, Option.map_some']
    rw [h2, if_pos (Or.inl ⟨rfl, hgt⟩), hl, hlt]

/-- C3 counterexample: an existing object labelled `cup` is present, yet a
far-away `cup` detection (IoU 0 ≤ 0.1) still creates a new object —
`process_detections` reports one newly created object, so label identity
alone does not prevent creation. -/
theorem C3_same_label_still_creates_cex :
    (cupDemo false ∈ ([cupDemo false] : List TrackedObject) ∧
      (cupDemo false).label = (parseLabel "cup").1) ∧
    (process_detections [⟨[500, 500, 600, 600], "cup"⟩] ⟨1000, 1000⟩ 9
      ⟨[cupDemo false], 1⟩).2 = 1 := by
  have hconv : convertDetection [500, 500, 600, 600] ⟨1000, 1000⟩ =
      some ⟨500, 500, 100, 100⟩ := by
    norm_num [convertDetection, intTrunc]
  refine ⟨⟨List.mem_singleton.mpr rfl, rfl⟩, ?_⟩
  rw [process_detections_single ⟨[500, 500, 600, 600], "cup"⟩ ⟨1000, 1000⟩ 9
    ⟨[cupDemo false], 1⟩ ⟨500, 500, 100, 100⟩ hconv]
  rw [matchDetection_no_match _ _ _ _ _ ?_]
  · rfl
  · intro p hp _
    rw [List.mem_singleton.mp hp]
    have : compute_iou (cupDemo false).bbox ⟨500, 500, 100, 100⟩ = 0 := by
      norm_num [compute_iou, cupDemo, min_def, max_def]
    rw [this]
    norm_num

/-- C3 (amended): for a valid detection record, `process_detections`
creates a new object (with fresh id `next_id`, the palette colour and the
registered audio signature assigned by `add_object`, counted in the
returned count) exactly when no existing object has both an identical
context-stripped label and IoU above 0.1 with the converted bbox; when
some existing object matches by label with IoU above 0.1, no new object
is created for that record. -/
theorem C3_new_object_policy (d : Detection) (frame : Frame) (now : ℚ)
    (st : OMState) (bb : Bbox)
    (hconv : convertDetection d.box_2d frame = some bb) :
    ((process_detections [d] frame now st).2 = 1 ↔
      ∀ p ∈ st.objects, p.label = (parseLabel d.label).1 →
        ¬ compute_iou p.bbox bb > 1/10) ∧
    ((∀ p ∈ st.objects, p.label = (parseLabel d.label).1 →
        ¬ compute_iou p.bbox bb > 1/10) →
      (process_detections [d] frame now st).1.objects =
        st.objects ++ [(add_object st (parseLabel d.label).1 bb
          (parseLabel d.label).2 now).2] ∧
      (process_detections [d] frame now st).1.next_id = st.next_id + 1 ∧
      (add_object st (parseLabel d.label).1 bb (parseLabel d.label).2 now).2.id
        = st.next_id) ∧
    ((∃ p ∈ st.objects, p.label = (parseLabel d.label).1 ∧
        compute_iou p.bbox bb > 1/10) →
      (process_detections [d] frame now st).2 = 0) := by
  rw [process_detections_single d frame now st bb hconv]
  refine ⟨?_, ?_, ?_⟩
  · by_cases hm : (matchDetection (parseLabel d.label).1 bb (parseLabel d.label).2
        now st.objects).2 = true
    · simp only [hm, if_true]
      constructor
      · intro h
        cases h
      · intro hall
        obtain ⟨p, hp, hpl, hpio⟩ :=
          (matchDetection_matched_iff (parseLabel d.label).1 bb
            (parseLabel d.label).2 now st.objects).mp hm
        exact absurd hpio (hall p hp hpl)
    · simp only [hm, Bool.false_eq_true, if_false]
      constructor
      · intro _ p hp hpl hpio
        exact hm ((matchDetection_matched_iff _ _ _ _ _).mpr ⟨p, hp, hpl, hpio⟩)
      · intro _
        trivial
  · intro hno
    have hmm := matchDetection_no_match (parseLabel d.label).1 bb
      (parseLabel d.label).2 now st.objects hno
    have hm2 : (matchDetection (parseLabel d.label).1 bb (parseLabel d.label).2
        now st.objects).2 = false := by
      rw [hmm]
    have hm1 : (matchDetection (parseLabel d.label).1 bb (parseLabel d.label).2
        now st.objects).1 = st.objects := by
      rw [hmm]
    simp only [hm2, Bool.false_eq_true, if_false, hm1]
    exact ⟨rfl, rfl, rfl⟩
  · intro hex
    have hm : (matchDetection (parseLabel d.label).1 bb (parseLabel d.label).2
        now st.objects).2 = true :=
      (matchDetection_matched_iff _ _ _ _ _).mpr hex
    simp only [hm, if_true]

/-- C3 witness: the far `cup` detection adds a new object with id
`next_id = 1`, while a well-overlapping `cup` detection (IoU 0.8) adds
none. -/
theorem C3_new_object_policy_witness :
    (process_detections [⟨[500, 500, 600, 600], "cup"⟩] ⟨1000, 1000⟩ 9
      ⟨[cupDemo false], 1⟩).1.next_id = 2 ∧
    (process_detections [⟨[0, 0, 8, 10], "cup"⟩] ⟨1000, 1000⟩ 9
      ⟨[cupDemo false], 1⟩).2 = 0 := by
  constructor
  · have hconv : convertDetection [500, 500, 600, 600] ⟨1000, 1000⟩ =
        some ⟨500, 500, 100, 100⟩ := by
      norm_num [convertDetection, intTrunc]
    have h := ((C3_new_object_policy ⟨[500, 500, 600, 600], "cup"⟩ ⟨1000, 1000⟩ 9
        ⟨[cupDemo false], 1⟩ ⟨500, 500, 100, 100⟩ hconv).2.1 ?_).2.1
    · rw [h]
    · intro p hp _
      rw [List.mem_singleton.mp hp]
      have : compute_iou (cupDemo false).bbox ⟨500, 500, 100, 100⟩ = 0 := by
        norm_num [compute_iou, cupDemo, min_def, max_def]
      rw [this]
      norm_num
  · have hconv : convertDetection [0, 0, 8, 10] ⟨1000, 1000⟩ =
        some ⟨0, 0, 10, 8⟩ := by
      norm_num [convertDetection, intTrunc]
    apply (C3_new_object_policy ⟨[0, 0, 8, 10], "cup"⟩ ⟨1000, 1000⟩ 9
        ⟨[cupDemo false], 1⟩ ⟨0, 0, 10, 8⟩ hconv).2.2
    refine ⟨cupDemo false, List.mem_singleton.mpr rfl, rfl, ?_⟩
    have : compute_iou (cupDemo false).bbox ⟨0, 0, 10, 8⟩ = 4/5 := by
      norm_num [compute_iou, cupDemo, min_def, max_def]
    rw [this]
    norm_num
